import Mathlib

/-!
Verification of the interrupt-dispatch core of the RP2350 Tock port:
the chip orchestrator in chips/rp2350/src/chip.rs, the Cortex-M33
architecture crate in arch/cortex-m33/src/lib.rs, and the hardware
primitives (NVIC, SIO, MPU) they build on.  Hardware-register primitives
that live in the shared cortexm crate are modelled from the specification
of the InterruptController and MPU interfaces; the orchestrator itself is
translated directly from the source.
-/

/-- Modelled from the spec: an InterruptMask is a wide bit-set held as two
128-bit words (the cortexm interrupt_mask machinery is not under src/).
The pair is (high word, low word): bit i of the low word covers interrupt
ID i for i < 128, bit i of the high word covers ID 128 + i. -/
def maskTestBit (m : Nat × Nat) (i : Nat) : Bool :=
  if i < 128 then m.2.testBit i else m.1.testBit (i - 128)

/-- Set bit i of a two-word bit pair (low word for IDs below 128,
high word above), mirroring low_interrupts |= 1 << id. -/
def maskSetBit (m : Nat × Nat) (i : Nat) : Nat × Nat :=
  if i < 128 then (m.1, m.2 ||| 2 ^ i) else (m.1 ||| 2 ^ (i - 128), m.2)

/-- Clear bit i of a natural number (used to model a write to the
interrupt-clear-pending register for one line). -/
def natClearBit (n : Nat) (i : Nat) : Nat :=
  if n.testBit i then n ^^^ 2 ^ i else n

/-- Clear bit i of a two-word bit pair. -/
def maskClearBit (m : Nat × Nat) (i : Nat) : Nat × Nat :=
  if i < 128 then (m.1, natClearBit m.2 i) else (natClearBit m.1 (i - 128), m.2)

/-- Modelled from the spec: the interrupt_mask construction (a cortexm
macro, not under src/) builds a two-word mask from a fixed list of
foreign-core interrupt IDs to exclude, setting one bit per listed ID. -/
def interrupt_mask (ids : List Nat) : Nat × Nat :=
  ids.foldl maskSetBit (0, 0)

/-- Modelled from the spec: the interrupt controller state visible to this
layer, the pending bits (ispr) and enable bits (iser) for all lines. -/
structure NvicState where
  ispr : Nat × Nat
  iser : Nat × Nat
deriving DecidableEq, Repr

/-- Modelled from the spec: InterruptController.is_pending(id). -/
def NvicState.is_pending (n : NvicState) (i : Nat) : Bool :=
  maskTestBit n.ispr i

/-- Modelled from the spec: InterruptController.clear_pending(id). -/
def NvicState.clear_pending (n : NvicState) (i : Nat) : NvicState :=
  { n with ispr := maskClearBit n.ispr i }

/-- Modelled from the spec: InterruptController.enable(id). -/
def NvicState.enable (n : NvicState) (i : Nat) : NvicState :=
  { n with iser := maskSetBit n.iser i }

/-- Number of interrupt lines covered by the two 128-bit mask words. -/
def numInterruptLines : Nat := 256

/-- Modelled from the spec: next_pending_with_mask finds the lowest pending
interrupt ID that is not excluded by the given mask, or none. -/
def next_pending_with_mask (ispr mask : Nat × Nat) : Option Nat :=
  (List.range numInterruptLines).find? fun i =>
    maskTestBit ispr i && !maskTestBit mask i

/-- Modelled from the spec: has_pending_with_mask reports whether any
pending interrupt ID is not excluded by the given mask. -/
def has_pending_with_mask (ispr mask : Nat × Nat) : Bool :=
  (List.range numInterruptLines).any fun i =>
    maskTestBit ispr i && !maskTestBit mask i

/-- The Processor enumeration from chips/rp2350/src/chip.rs. -/
inductive Processor where
  | Processor0
  | Processor1
deriving DecidableEq, Repr

/-- Modelled from the spec: the core-identification register read by the
orchestrator (the gpio Sio driver is not under src/); get_processor
reports which physical core is executing and is never mutated by
software. -/
structure Sio where
  cpuid : Processor
deriving DecidableEq, Repr

/-- Reading the core-identification register. -/
def Sio.get_processor (s : Sio) : Processor :=
  s.cpuid

/-- Mnemonic interrupt ID constants (the crate interrupts module is not
under src/; the spec treats them as opaque, distinct small integers
matching the datasheet numbering). -/
def TIMER_IRQ_0 : Nat := 0

/-- Interrupt ID constant, see TIMER_IRQ_0. -/
def PWM_IRQ_WRAP : Nat := 4

/-- Interrupt ID constant, see TIMER_IRQ_0. -/
def USBCTRL_IRQ : Nat := 5

/-- Interrupt ID constant, see TIMER_IRQ_0. -/
def PIO0_IRQ_0 : Nat := 7

/-- Interrupt ID constant, see TIMER_IRQ_0. -/
def IO_IRQ_BANK0 : Nat := 13

/-- Interrupt ID constant, see TIMER_IRQ_0. -/
def SIO_IRQ_PROC0 : Nat := 15

/-- Interrupt ID constant, see TIMER_IRQ_0. -/
def SIO_IRQ_PROC1 : Nat := 16

/-- Interrupt ID constant, see TIMER_IRQ_0. -/
def SPI0_IRQ : Nat := 18

/-- Interrupt ID constant, see TIMER_IRQ_0. -/
def UART0_IRQ : Nat := 20

/-- Interrupt ID constant, see TIMER_IRQ_0. -/
def ADC_IRQ_FIFO : Nat := 22

/-- Interrupt ID constant, see TIMER_IRQ_0. -/
def I2C0_IRQ : Nat := 23

/-- The Rp2350 chip orchestrator from chips/rp2350/src/chip.rs.  The
InterruptService reference is embedded as a state-passing service
function over an abstract peripheral state type: service s id returns
the recognized flag together with the updated peripheral state. -/
structure Rp2350 (σ : Type) where
  interrupt_service : σ → Nat → Bool × σ
  sio : Sio
  processor0_interrupt_mask : Nat × Nat
  processor1_interrupt_mask : Nat × Nat

/-- Rp2350::new: the per-core exclusion masks are built once, core 0
excluding SIO_IRQ_PROC1 and core 1 excluding SIO_IRQ_PROC0. -/
def Rp2350.new (interrupt_service : σ → Nat → Bool × σ) (sio : Sio) :
    Rp2350 σ :=
  { interrupt_service := interrupt_service
    sio := sio
    processor0_interrupt_mask := interrupt_mask [SIO_IRQ_PROC1]
    processor1_interrupt_mask := interrupt_mask [SIO_IRQ_PROC0] }

/-- The mask selection shared by service_pending_interrupts and
has_pending_interrupts: match on sio.get_processor and pick the
precomputed mask of the executing core. -/
def Rp2350.currentMask (c : Rp2350 σ) : Nat × Nat :=
  match c.sio.get_processor with
  | Processor.Processor0 => c.processor0_interrupt_mask
  | Processor.Processor1 => c.processor1_interrupt_mask

/-- Number of interrupt lines pending and not excluded by the mask; the
termination measure of the drain loop. -/
def maskedPendingCount (ispr mask : Nat × Nat) : Nat :=
  ((Finset.range numInterruptLines).filter fun i =>
    maskTestBit ispr i = true ∧ maskTestBit mask i = false).card

theorem natClearBit_testBit_self (n i : Nat) :
    (natClearBit n i).testBit i = false := by
  unfold natClearBit
  by_cases h : n.testBit i
  · simp [h, Nat.testBit_xor]
  · simp [h]

theorem natClearBit_testBit_ne (n : Nat) (h : j ≠ i) :
    (natClearBit n i).testBit j = n.testBit j := by
  unfold natClearBit
  by_cases hb : n.testBit i
  · simp [hb, Nat.testBit_xor, Nat.testBit_two_pow_of_ne (Ne.symm h)]
  · simp [hb]

theorem maskClearBit_test_self (m : Nat × Nat) (i : Nat) :
    maskTestBit (maskClearBit m i) i = false := by
  unfold maskClearBit maskTestBit
  by_cases h : i < 128 <;> simp [h, natClearBit_testBit_self]

theorem maskClearBit_test_ne (m : Nat × Nat) (h : j ≠ i) :
    maskTestBit (maskClearBit m i) j = maskTestBit m j := by
  unfold maskClearBit maskTestBit
  by_cases hi : i < 128 <;> by_cases hj : j < 128 <;>
    simp [hi, hj]
  · exact natClearBit_testBit_ne _ h
  · have : j - 128 ≠ i - 128 := by omega
    exact natClearBit_testBit_ne _ this

theorem maskSetBit_test_self (m : Nat × Nat) (i : Nat) :
    maskTestBit (maskSetBit m i) i = true := by
  unfold maskSetBit maskTestBit
  by_cases h : i < 128 <;> simp [h, Nat.testBit_lor]

theorem maskSetBit_test_ne (m : Nat × Nat) (h : j ≠ i) :
    maskTestBit (maskSetBit m i) j = maskTestBit m j := by
  unfold maskSetBit maskTestBit
  by_cases hi : i < 128 <;> by_cases hj : j < 128 <;>
    simp [hi, hj, Nat.testBit_lor]
  · simp [Nat.testBit_two_pow_of_ne (Ne.symm h)]
  · have : i - 128 ≠ j - 128 := by omega
    simp [Nat.testBit_two_pow_of_ne this]

theorem next_pending_mem (h : next_pending_with_mask ispr mask = some i) :
    i < numInterruptLines ∧ maskTestBit ispr i = true ∧
      maskTestBit mask i = false := by
  have hmem := List.mem_of_find?_eq_some h
  have hp := List.find?_some h
  simp only [Bool.and_eq_true, Bool.not_eq_true'] at hp
  exact ⟨List.mem_range.mp hmem, hp.1, hp.2⟩

theorem maskedPendingCount_clear_lt
    (h : next_pending_with_mask ispr mask = some i) :
    maskedPendingCount (maskClearBit ispr i) mask <
      maskedPendingCount ispr mask := by
  obtain ⟨hlt, hpend, hmask⟩ := next_pending_mem h
  apply Finset.card_lt_card
  constructor
  · intro j hj
    simp only [Finset.mem_filter, Finset.mem_range] at hj ⊢
    obtain ⟨hjr, hjp, hjm⟩ := hj
    have hji : j ≠ i := by
      intro he
      rw [he, maskClearBit_test_self] at hjp
      exact Bool.false_ne_true hjp
    rw [maskClearBit_test_ne _ hji] at hjp
    exact ⟨hjr, hjp, hjm⟩
  · intro hsub
    have hin : i ∈ (Finset.range numInterruptLines).filter fun j =>
        maskTestBit ispr j = true ∧ maskTestBit mask j = false := by
      simp only [Finset.mem_filter, Finset.mem_range]
      exact ⟨hlt, hpend, hmask⟩
    have := hsub hin
    simp only [Finset.mem_filter, Finset.mem_range,
      maskClearBit_test_self] at this
    exact Bool.false_ne_true this.2.1

/-- The drain loop of Rp2350::service_pending_interrupts, with the
hardware interrupt-controller state passed explicitly and the sequence of
IDs dispatched to the InterruptService returned as a log.  An
unrecognized ID halts the kernel: modelled as an error carrying the
diagnostic message of the halt. -/
def servicePendingLoop (svc : σ → Nat → Bool × σ) (mask : Nat × Nat)
    (nvic : NvicState) (s : σ) : Except String (NvicState × σ × List Nat) :=
  match h : next_pending_with_mask nvic.ispr mask with
  | none => Except.ok (nvic, s, [])
  | some interrupt =>
      let r := svc s interrupt
      if r.1 then
        match servicePendingLoop svc mask
            ((nvic.clear_pending interrupt).enable interrupt) r.2 with
        | Except.ok (n2, s3, log) => Except.ok (n2, s3, interrupt :: log)
        | Except.error e => Except.error e
      else
        Except.error ("unhandled interrupt " ++ toString interrupt)
termination_by maskedPendingCount nvic.ispr mask
decreasing_by
  simp only [NvicState.enable, NvicState.clear_pending]
  exact maskedPendingCount_clear_lt h

/-- Rp2350::service_pending_interrupts: select the executing core's mask
and drain. -/
def Rp2350.service_pending_interrupts (c : Rp2350 σ) (nvic : NvicState)
    (s : σ) : Except String (NvicState × σ × List Nat) :=
  servicePendingLoop c.interrupt_service c.currentMask nvic s

/-- Rp2350::has_pending_interrupts: same mask selection, read-only query
of the interrupt-controller state. -/
def Rp2350.has_pending_interrupts (c : Rp2350 σ) (nvic : NvicState) :
    Bool :=
  has_pending_with_mask nvic.ispr c.currentMask

theorem servicePendingLoop_of_none {svc : σ → Nat → Bool × σ}
    (s : σ) (h : next_pending_with_mask nvic.ispr mask = none) :
    servicePendingLoop svc mask nvic s = Except.ok (nvic, s, []) := by
  rw [servicePendingLoop]
  split
  · rfl
  · simp_all

theorem servicePendingLoop_of_some_true {svc : σ → Nat → Bool × σ} {s s2 : σ}
    (h : next_pending_with_mask nvic.ispr mask = some i)
    (hs : svc s i = (true, s2)) :
    servicePendingLoop svc mask nvic s =
      match servicePendingLoop svc mask
          ((nvic.clear_pending i).enable i) s2 with
      | Except.ok (n2, s3, log) => Except.ok (n2, s3, i :: log)
      | Except.error e => Except.error e := by
  rw [servicePendingLoop]
  split
  · simp_all
  · rename_i i2 heq
    rw [h] at heq
    cases heq
    simp [hs]

theorem servicePendingLoop_of_some_false {svc : σ → Nat → Bool × σ} {s : σ}
    (h : next_pending_with_mask nvic.ispr mask = some i)
    (hs : (svc s i).1 = false) :
    servicePendingLoop svc mask nvic s =
      Except.error ("unhandled interrupt " ++ toString i) := by
  rw [servicePendingLoop]
  split
  · simp_all
  · rename_i i2 heq
    rw [h] at heq
    cases heq
    simp [hs]

/-- C1: if the ID found pending within the current core mask is one the
InterruptService does not recognize (service_interrupt returns false),
service_pending_interrupts halts the kernel with a diagnostic that
carries that ID ("unhandled interrupt i"); since this holds for every
reachable controller and peripheral state, no path continues silently
past an unrecognized ID. -/
theorem C1_unrecognized_id_halts {σ : Type} (c : Rp2350 σ)
    (nvic : NvicState) (s : σ) (i : Nat)
    (h : next_pending_with_mask nvic.ispr c.currentMask = some i)
    (hs : (c.interrupt_service s i).1 = false) :
    c.service_pending_interrupts nvic s =
      Except.error ("unhandled interrupt " ++ toString i) :=
  servicePendingLoop_of_some_false h hs

/-- Witness for C1: a service recognizing nothing, with line 3 pending on
core 0, halts with the diagnostic carrying ID 3. -/
theorem C1_unrecognized_id_halts_witness :
    (Rp2350.new (fun (s : Unit) (_ : Nat) => (false, s))
        ⟨Processor.Processor0⟩).service_pending_interrupts
        ⟨(0, 8), (0, 0)⟩ () =
      Except.error ("unhandled interrupt " ++ toString 3) :=
  C1_unrecognized_id_halts _ _ _ 3 (by decide) rfl

/-- C7: in a quiescent state (no pending interrupt within the current
core mask) service_pending_interrupts returns at once, leaves the
interrupt-controller and peripheral state unchanged, and dispatches
nothing (empty log); repeating the call is therefore idempotent. -/
theorem C7_quiescent_call_is_identity {σ : Type} (c : Rp2350 σ)
    (nvic : NvicState) (s : σ)
    (h : next_pending_with_mask nvic.ispr c.currentMask = none) :
    c.service_pending_interrupts nvic s = Except.ok (nvic, s, []) :=
  servicePendingLoop_of_none s h

/-- Witness for C7: a fully quiescent controller on core 1 is returned
unchanged with nothing dispatched. -/
theorem C7_quiescent_call_is_identity_witness :
    (Rp2350.new (fun (s : Unit) (_ : Nat) => (true, s))
        ⟨Processor.Processor1⟩).service_pending_interrupts
        ⟨(0, 0), (0, 0)⟩ () =
      Except.ok (⟨(0, 0), (0, 0)⟩, (), []) :=
  C7_quiescent_call_is_identity _ _ _ (by decide)

/-- C3: when the service recognizes the found ID, the orchestrator clears
the pending flag of that line and re-enables it before the next lookup:
the continuation state passed to the rest of the drain has is_pending
false and the enable bit set for that ID. -/
theorem C3_success_clears_then_enables {σ : Type} (c : Rp2350 σ)
    (nvic : NvicState) (s s2 : σ) (i : Nat)
    (h : next_pending_with_mask nvic.ispr c.currentMask = some i)
    (hs : c.interrupt_service s i = (true, s2)) :
    NvicState.is_pending ((nvic.clear_pending i).enable i) i = false ∧
    maskTestBit ((nvic.clear_pending i).enable i).iser i = true ∧
    c.service_pending_interrupts nvic s =
      Except.map (fun r => (r.1, r.2.1, i :: r.2.2))
        (servicePendingLoop c.interrupt_service c.currentMask
          ((nvic.clear_pending i).enable i) s2) := by
  refine ⟨?_, ?_, ?_⟩
  · simp [NvicState.is_pending, NvicState.enable, NvicState.clear_pending,
      maskClearBit_test_self]
  · simp [NvicState.enable, NvicState.clear_pending, maskSetBit_test_self]
  · have h3 := servicePendingLoop_of_some_true h hs
    rw [Rp2350.service_pending_interrupts, h3]
    cases servicePendingLoop c.interrupt_service c.currentMask
        ((nvic.clear_pending i).enable i) s2 with
    | ok v => rfl
    | error e => rfl

/-- Witness for C3: servicing pending line 5 on core 0 clears and
re-enables line 5 before the drain continues. -/
theorem C3_success_clears_then_enables_witness :
    NvicState.is_pending
      ((NvicState.clear_pending ⟨(0, 32), (0, 0)⟩ 5).enable 5) 5 = false ∧
    maskTestBit
      ((NvicState.clear_pending ⟨(0, 32), (0, 0)⟩ 5).enable 5).iser 5 = true ∧
    (Rp2350.new (fun (s : Unit) (_ : Nat) => (true, s))
        ⟨Processor.Processor0⟩).service_pending_interrupts
        ⟨(0, 32), (0, 0)⟩ () =
      Except.map (fun r => (r.1, r.2.1, 5 :: r.2.2))
        (servicePendingLoop
          (Rp2350.new (fun (s : Unit) (_ : Nat) => (true, s))
            ⟨Processor.Processor0⟩).interrupt_service
          (Rp2350.new (fun (s : Unit) (_ : Nat) => (true, s))
            ⟨Processor.Processor0⟩).currentMask
          ((NvicState.clear_pending ⟨(0, 32), (0, 0)⟩ 5).enable 5) ()) := by
  exact C3_success_clears_then_enables
    (Rp2350.new (fun (s : Unit) (_ : Nat) => (true, s)) ⟨Processor.Processor0⟩)
    ⟨(0, 32), (0, 0)⟩ () () 5 (by decide) rfl

theorem next_pending_none_not_pending
    (h : next_pending_with_mask ispr mask = none) (hi : i < numInterruptLines)
    (hm : maskTestBit mask i = false) : maskTestBit ispr i = false := by
  have := List.find?_eq_none.mp h i (List.mem_range.mpr hi)
  simp only [Bool.and_eq_true, Bool.not_eq_true', not_and] at this
  by_cases hp : maskTestBit ispr i = true
  · exact absurd hm (by simpa [hp] using this)
  · simpa using hp

theorem servicePendingLoop_ok_drained {σ : Type} {svc : σ → Nat → Bool × σ}
    {mask : Nat × Nat} :
    ∀ (N : Nat) (nvic : NvicState), maskedPendingCount nvic.ispr mask = N →
    ∀ (s : σ) (n2 : NvicState) (s2 : σ) (log : List Nat),
      servicePendingLoop svc mask nvic s = Except.ok (n2, s2, log) →
      next_pending_with_mask n2.ispr mask = none ∧
      ∀ i, i < numInterruptLines → maskTestBit nvic.ispr i = true →
        maskTestBit mask i = false → i ∈ log := by
  intro N
  induction N using Nat.strong_induction_on with
  | _ N ih =>
    intro nvic hN s n2 s2 log hrun
    cases hnext : next_pending_with_mask nvic.ispr mask with
    | none =>
        rw [servicePendingLoop_of_none s hnext] at hrun
        injection hrun with hr
        obtain ⟨h1, h2, h3⟩ := Prod.mk.injEq .. ▸ hr
        refine ⟨h1 ▸ hnext, fun i hi hp hm => ?_⟩
        exact absurd (next_pending_none_not_pending hnext hi hm) (by simp [hp])
    | some i =>
        cases hb : svc s i with
        | mk b s3 =>
          cases b with
          | false =>
              rw [servicePendingLoop_of_some_false hnext (by rw [hb])] at hrun
              exact absurd hrun (by simp)
          | true =>
              rw [servicePendingLoop_of_some_true hnext hb] at hrun
              cases hrec : servicePendingLoop svc mask
                  ((nvic.clear_pending i).enable i) s3 with
              | error e =>
                  rw [hrec] at hrun
                  exact absurd hrun (by simp)
              | ok v =>
                  obtain ⟨nr, sr, logr⟩ := v
                  rw [hrec] at hrun
                  simp only [Except.ok.injEq, Prod.mk.injEq] at hrun
                  obtain ⟨he1, he2, he3⟩ := hrun
                  subst he1
                  subst he2
                  subst he3
                  have hispr : ((nvic.clear_pending i).enable i).ispr =
                      maskClearBit nvic.ispr i := rfl
                  have hlt : maskedPendingCount
                      ((nvic.clear_pending i).enable i).ispr mask < N := by
                    rw [hispr, ← hN]
                    exact maskedPendingCount_clear_lt hnext
                  have ihres := ih _ hlt ((nvic.clear_pending i).enable i) rfl
                    s3 nr sr logr hrec
                  constructor
                  · exact ihres.1
                  · intro j hj hp hm
                    by_cases hji : j = i
                    · subst hji
                      exact List.mem_cons_self j logr
                    · have hp2 : maskTestBit
                          ((nvic.clear_pending i).enable i).ispr j = true := by
                        rw [hispr, maskClearBit_test_ne _ hji]
                        exact hp
                      exact List.mem_cons_of_mem i (ihres.2 j hj hp2 hm)

/-- C2: under the structural precondition that no new interrupts are
asserted during the call (the embedding asserts none), the drain loop of
service_pending_interrupts terminates (it is a total function of the
starting state), and whenever it returns normally, no interrupt ID within
the current core mask is still pending and every ID that was pending
within the mask at entry was dispatched to the InterruptService (appears
in the dispatch log). -/
theorem C2_drains_to_quiescence {σ : Type} (c : Rp2350 σ)
    (nvic : NvicState) (s : σ) (n2 : NvicState) (s2 : σ) (log : List Nat)
    (h : c.service_pending_interrupts nvic s = Except.ok (n2, s2, log)) :
    (∀ i, i < numInterruptLines → maskTestBit c.currentMask i = false →
      n2.is_pending i = false) ∧
    ∀ i, i < numInterruptLines → maskTestBit nvic.ispr i = true →
      maskTestBit c.currentMask i = false → i ∈ log := by
  have hres := servicePendingLoop_ok_drained
    (maskedPendingCount nvic.ispr c.currentMask) nvic rfl s n2 s2 log h
  refine ⟨fun i hi hm => ?_, hres.2⟩
  exact next_pending_none_not_pending hres.1 hi hm

/-- Witness for C2: one pending line (ID 2) on core 0 is drained, the
final controller state has nothing pending within the mask, and ID 2 was
dispatched. -/
theorem C2_drains_to_quiescence_witness :
    (∀ i, i < numInterruptLines →
      maskTestBit (Rp2350.new (fun (s : Unit) (_ : Nat) => (true, s))
        ⟨Processor.Processor0⟩).currentMask i = false →
      NvicState.is_pending ⟨(0, 0), (0, 4)⟩ i = false) ∧
    ∀ i, i < numInterruptLines →
      maskTestBit ((0, 4) : Nat × Nat) i = true →
      maskTestBit (Rp2350.new (fun (s : Unit) (_ : Nat) => (true, s))
        ⟨Processor.Processor0⟩).currentMask i = false →
      i ∈ [2] := by
  refine C2_drains_to_quiescence
    (Rp2350.new (fun (s : Unit) (_ : Nat) => (true, s)) ⟨Processor.Processor0⟩)
    ⟨(0, 4), (0, 0)⟩ () ⟨(0, 0), (0, 4)⟩ () [2] ?_
  have h1 : next_pending_with_mask ((⟨(0, 4), (0, 0)⟩ : NvicState)).ispr
      (Rp2350.new (fun (s : Unit) (_ : Nat) => (true, s))
        ⟨Processor.Processor0⟩).currentMask = some 2 := by decide
  have h2 : (Rp2350.new (fun (s : Unit) (_ : Nat) => (true, s))
      ⟨Processor.Processor0⟩).interrupt_service () 2 = (true, ()) := rfl
  rw [Rp2350.service_pending_interrupts, servicePendingLoop_of_some_true h1 h2]
  have h3 : next_pending_with_mask
      ((NvicState.clear_pending ⟨(0, 4), (0, 0)⟩ 2).enable 2).ispr
      (Rp2350.new (fun (s : Unit) (_ : Nat) => (true, s))
        ⟨Processor.Processor0⟩).currentMask = none := by decide
  rw [servicePendingLoop_of_none () h3]
  rfl

theorem maskTestBit_zero (j : Nat) : maskTestBit (0, 0) j = false := by
  unfold maskTestBit
  by_cases h : j < 128 <;> simp [h, Nat.zero_testBit]

theorem has_pending_iff {ispr mask : Nat × Nat} :
    has_pending_with_mask ispr mask = true ↔
      ∃ i, i < numInterruptLines ∧ maskTestBit ispr i = true ∧
        maskTestBit mask i = false := by
  simp [has_pending_with_mask, List.any_eq_true, List.mem_range,
    Bool.and_eq_true, Bool.not_eq_true']

/-- C4: has_pending_interrupts selects the precomputed mask of the
physical core read from the core-identification register and is a
read-only query.  When the only pending interrupt ID x is excluded by the
executing core's mask (owned by the other core), the query reports false;
when x is not excluded it reports true. -/
theorem C4_mask_partition {σ : Type} (c : Rp2350 σ) (nvic : NvicState)
    (x : Nat) (hx : x < numInterruptLines)
    (hsingle : nvic.ispr = maskSetBit (0, 0) x) :
    (maskTestBit c.currentMask x = true →
      c.has_pending_interrupts nvic = false) ∧
    (maskTestBit c.currentMask x = false →
      c.has_pending_interrupts nvic = true) := by
  constructor
  · intro hm
    cases hres : c.has_pending_interrupts nvic with
    | false => rfl
    | true =>
        exfalso
        obtain ⟨i, hi, hp, hmm⟩ := has_pending_iff.mp hres
        by_cases hix : i = x
        · subst hix
          simp [hm] at hmm
        · rw [hsingle, maskSetBit_test_ne _ hix, maskTestBit_zero] at hp
          exact Bool.false_ne_true hp
  · intro hm
    exact has_pending_iff.mpr
      ⟨x, hx, by rw [hsingle]; exact maskSetBit_test_self _ _, hm⟩

/-- Witness for C4: with only SIO_IRQ_PROC1 (ID 16) pending, core 0,
whose mask excludes it, reports nothing pending, while core 1 reports a
pending interrupt. -/
theorem C4_mask_partition_witness :
    (Rp2350.new (fun (s : Unit) (_ : Nat) => (true, s))
      ⟨Processor.Processor0⟩).has_pending_interrupts
      ⟨maskSetBit (0, 0) 16, (0, 0)⟩ = false ∧
    (Rp2350.new (fun (s : Unit) (_ : Nat) => (true, s))
      ⟨Processor.Processor1⟩).has_pending_interrupts
      ⟨maskSetBit (0, 0) 16, (0, 0)⟩ = true :=
  ⟨(C4_mask_partition
      (Rp2350.new (fun (s : Unit) (_ : Nat) => (true, s))
        ⟨Processor.Processor0⟩)
      ⟨maskSetBit (0, 0) 16, (0, 0)⟩ 16 (by decide) rfl).1 (by decide),
   (C4_mask_partition
      (Rp2350.new (fun (s : Unit) (_ : Nat) => (true, s))
        ⟨Processor.Processor1⟩)
      ⟨maskSetBit (0, 0) 16, (0, 0)⟩ 16 (by decide) rfl).2 (by decide)⟩

/-- Scenario state for the dual-core masking scenario: ID 10 is excluded
from the mask of core 1 (visible only to core 0, playing the role of the
SIO inter-processor line), ID 20 is excluded by neither mask; the service
recognizes every ID. -/
def scenarioChip (p : Processor) : Rp2350 Unit :=
  { interrupt_service := fun s _ => (true, s)
    sio := ⟨p⟩
    processor0_interrupt_mask := interrupt_mask [SIO_IRQ_PROC1]
    processor1_interrupt_mask := interrupt_mask [10] }

/-- Controller state with exactly IDs 10 and 20 pending
(2 ^ 10 + 2 ^ 20 = 1049600). -/
def scenarioNvic : NvicState :=
  ⟨(0, 1049600), (0, 0)⟩

/-- C5: with IDs 10 and 20 both pending, running the drain on core 1
services only ID 20 and leaves ID 10 pending, while running it on core 0
services ID 10 (and then 20). -/
theorem C5_two_core_scenario :
    (scenarioChip Processor.Processor1).service_pending_interrupts
        scenarioNvic () =
      Except.ok (⟨(0, 1024), (0, 1048576)⟩, (), [20]) ∧
    NvicState.is_pending ⟨(0, 1024), (0, 1048576)⟩ 10 = true ∧
    (scenarioChip Processor.Processor0).service_pending_interrupts
        scenarioNvic () =
      Except.ok (⟨(0, 0), (0, 1049600)⟩, (), [10, 20]) := by
  refine ⟨?_, by decide, ?_⟩
  · have h1 : next_pending_with_mask scenarioNvic.ispr
        (scenarioChip Processor.Processor1).currentMask = some 20 := by decide
    have h2 : (scenarioChip Processor.Processor1).interrupt_service () 20 =
        (true, ()) := rfl
    have h3 : next_pending_with_mask
        ((scenarioNvic.clear_pending 20).enable 20).ispr
        (scenarioChip Processor.Processor1).currentMask = none := by decide
    rw [Rp2350.service_pending_interrupts,
      servicePendingLoop_of_some_true h1 h2, servicePendingLoop_of_none () h3]
    rfl
  · have h1 : next_pending_with_mask scenarioNvic.ispr
        (scenarioChip Processor.Processor0).currentMask = some 10 := by decide
    have h2 : (scenarioChip Processor.Processor0).interrupt_service () 10 =
        (true, ()) := rfl
    have h3 : next_pending_with_mask
        ((scenarioNvic.clear_pending 10).enable 10).ispr
        (scenarioChip Processor.Processor0).currentMask = some 20 := by decide
    have h4 : (scenarioChip Processor.Processor0).interrupt_service () 20 =
        (true, ()) := rfl
    have h5 : next_pending_with_mask
        ((((scenarioNvic.clear_pending 10).enable 10).clear_pending 20).enable
          20).ispr
        (scenarioChip Processor.Processor0).currentMask = none := by decide
    rw [Rp2350.service_pending_interrupts,
      servicePendingLoop_of_some_true h1 h2,
      servicePendingLoop_of_some_true h3 h4, servicePendingLoop_of_none () h5]
    rfl

/-- The Rp2350DefaultPeripherals peripheral set from chips/rp2350/src/chip.rs,
one field per owned driver; driver-internal state is abstracted by one
type parameter. -/
structure Rp2350DefaultPeripherals (α : Type) where
  adc : α
  clocks : α
  i2c0 : α
  pins : α
  pio0 : α
  pio1 : α
  pwm : α
  resets : α
  sio : α
  spi0 : α
  sysinfo : α
  timer : α
  uart0 : α
  uart1 : α
  usb : α
  watchdog : α
  xosc : α
  rtc : α

/-- Modelled from the spec: the driver handle_interrupt methods invoked by
service_interrupt (the individual peripheral drivers are not under src/);
each performs peripheral-specific handling, modelled as an arbitrary
transformation of that driver's state. -/
structure DriverHandlers (α : Type) where
  pio_handle_interrupt : α → α
  timer_handle_interrupt : α → α
  sio_handle_proc_interrupt : Processor → α → α
  spi_handle_interrupt : α → α
  uart_handle_interrupt : α → α
  adc_handle_interrupt : α → α
  usb_handle_interrupt : α → α
  pins_handle_interrupt : α → α
  i2c_handle_interrupt : α → α

/-- InterruptService::service_interrupt for Rp2350DefaultPeripherals: match
on the interrupt ID, run the owning driver's handler and report true;
PWM_IRQ_WRAP is recognized but performs no handling; any other ID reports
false. -/
def Rp2350DefaultPeripherals.service_interrupt {α : Type}
    (h : DriverHandlers α) (p : Rp2350DefaultPeripherals α)
    (interrupt : Nat) : Bool × Rp2350DefaultPeripherals α :=
  if interrupt = PIO0_IRQ_0 then
    (true, { p with pio0 := h.pio_handle_interrupt p.pio0 })
  else if interrupt = TIMER_IRQ_0 then
    (true, { p with timer := h.timer_handle_interrupt p.timer })
  else if interrupt = SIO_IRQ_PROC0 then
    (true, { p with sio := h.sio_handle_proc_interrupt Processor.Processor0 p.sio })
  else if interrupt = SIO_IRQ_PROC1 then
    (true, { p with sio := h.sio_handle_proc_interrupt Processor.Processor1 p.sio })
  else if interrupt = SPI0_IRQ then
    (true, { p with spi0 := h.spi_handle_interrupt p.spi0 })
  else if interrupt = UART0_IRQ then
    (true, { p with uart0 := h.uart_handle_interrupt p.uart0 })
  else if interrupt = ADC_IRQ_FIFO then
    (true, { p with adc := h.adc_handle_interrupt p.adc })
  else if interrupt = USBCTRL_IRQ then
    (true, { p with usb := h.usb_handle_interrupt p.usb })
  else if interrupt = IO_IRQ_BANK0 then
    (true, { p with pins := h.pins_handle_interrupt p.pins })
  else if interrupt = I2C0_IRQ then
    (true, { p with i2c0 := h.i2c_handle_interrupt p.i2c0 })
  else if interrupt = PWM_IRQ_WRAP then
    (true, p)
  else
    (false, p)

/-- The interrupt IDs for which service_interrupt has a recognizing arm. -/
def handledInterruptIds : List Nat :=
  [PIO0_IRQ_0, TIMER_IRQ_0, SIO_IRQ_PROC0, SIO_IRQ_PROC1, SPI0_IRQ,
    UART0_IRQ, ADC_IRQ_FIFO, USBCTRL_IRQ, IO_IRQ_BANK0, I2C0_IRQ,
    PWM_IRQ_WRAP]

/-- C6: service_interrupt of the default peripheral set reports true
exactly for the interrupt IDs owned by a driver of the set (PIO0_IRQ_0,
TIMER_IRQ_0, SIO_IRQ_PROC0, SIO_IRQ_PROC1, SPI0_IRQ, UART0_IRQ,
ADC_IRQ_FIFO, USBCTRL_IRQ, IO_IRQ_BANK0, I2C0_IRQ, PWM_IRQ_WRAP), and in
particular reports false for the unexpected ID 255. -/
theorem C6_service_interrupt_exhaustive {α : Type} (h : DriverHandlers α)
    (p : Rp2350DefaultPeripherals α) (interrupt : Nat) :
    ((p.service_interrupt h interrupt).1 = true ↔
      interrupt ∈ handledInterruptIds) ∧
    (p.service_interrupt h 255).1 = false := by
  constructor
  · by_cases hmem : interrupt ∈ handledInterruptIds
    · refine iff_of_true ?_ hmem
      simp only [handledInterruptIds, List.mem_cons, List.not_mem_nil,
        or_false] at hmem
      rcases hmem with rfl | rfl | rfl | rfl | rfl | rfl | rfl | rfl | rfl |
        rfl | rfl <;> rfl
    · have hne := hmem
      simp only [handledInterruptIds, List.mem_cons, List.not_mem_nil,
        or_false, not_or] at hne
      obtain ⟨g1, g2, g3, g4, g5, g6, g7, g8, g9, g10, g11⟩ := hne
      have hfalse : (p.service_interrupt h interrupt).1 = false := by
        unfold Rp2350DefaultPeripherals.service_interrupt
        rw [if_neg g1, if_neg g2, if_neg g3, if_neg g4, if_neg g5, if_neg g6,
          if_neg g7, if_neg g8, if_neg g9, if_neg g10, if_neg g11]
      exact iff_of_false (by simp [hfalse]) hmem
  · rfl

/-- C10: the PWM_IRQ_WRAP arm of service_interrupt reports the interrupt
as recognized while invoking no handler: whatever the driver handlers do,
every field of the peripheral set is returned unchanged. -/
theorem C10_pwm_arm_recognized_without_effect {α : Type}
    (h : DriverHandlers α) (p : Rp2350DefaultPeripherals α) :
    p.service_interrupt h PWM_IRQ_WRAP = (true, p) :=
  rfl

/-- The CortexM33 zero-variant capability type from
arch/cortex-m33/src/lib.rs; it carries only associated functions and is
not instantiable. -/
inductive CortexM33 : Type

/-- CortexM33::switch_to_user on a build target without a native
implementation (not ARM bare-metal), from arch/cortex-m33/src/lib.rs
lines 46-52: the body is an unconditional unimplemented abort, modelled
as an error carrying the abort message; the saved process registers are
a machine-word array of length 8. -/
def CortexM33.switch_to_user (user_stack : Nat)
    (process_regs : List Nat) : Except String (Nat × List Nat) :=
  Except.error "not implemented"

/-- C8: on a build target without a native implementation, every
invocation of CortexM33::switch_to_user aborts with the unimplemented
diagnostic, for all argument values; no invocation returns normally. -/
theorem C8_switch_to_user_host_aborts (user_stack : Nat)
    (process_regs : List Nat) :
    CortexM33.switch_to_user user_stack process_regs =
      Except.error "not implemented" ∧
    ∀ r, CortexM33.switch_to_user user_stack process_regs ≠ Except.ok r := by
  refine ⟨rfl, fun r hr => ?_⟩
  simp [CortexM33.switch_to_user] at hr

/-- One MPU protection-region descriptor: base address and size in
bytes. -/
structure MpuRegion where
  base : Nat
  size : Nat
deriving DecidableEq, Repr

/-- Whether a natural number is a power of two, computably. -/
def isPow2 (n : Nat) : Bool :=
  n != 0 && (n &&& (n - 1)) == 0

/-- Modelled from the spec: validity of one region descriptor for a
minimum region size MIN_SIZE; the size must be a power of two of at
least MIN_SIZE bytes and the base aligned to the size (hence at least
MIN_SIZE-byte aligned). -/
def regionValid (MIN_SIZE : Nat) (r : MpuRegion) : Bool :=
  decide (MIN_SIZE ≤ r.size) && isPow2 r.size && (r.base % r.size == 0)

/-- Configuration errors signalled by the MPU, per the error-handling
design: caller-constructed configuration errors are signalled
synchronously, never silently clamped. -/
inductive MpuError where
  | tooManyRegions
  | invalidRegion
deriving DecidableEq, Repr

/-- Modelled from the spec: the cortexm MPU type generic over the number
of protection regions and the minimum region size (the cortexm mpu
module is not under src/); its state is the currently configured
regions. -/
structure CortexmMPU (NUM_REGIONS MIN_SIZE : Nat) where
  regions : List MpuRegion
deriving DecidableEq, Repr

/-- Modelled from the spec: configure_regions accepts a requested region
list only if it fits in the NUM_REGIONS hardware regions and every
region satisfies the alignment constraints; otherwise it signals a
configuration error and leaves no partial configuration. -/
def CortexmMPU.configure_regions (m : CortexmMPU N S)
    (rs : List MpuRegion) : Except MpuError (CortexmMPU N S) :=
  if N < rs.length then Except.error MpuError.tooManyRegions
  else if rs.all (regionValid S) then Except.ok ⟨rs⟩
  else Except.error MpuError.invalidRegion

/-- The instantiation in arch/cortex-m33/src/lib.rs: the chip MPU is the
cortexm MPU with 8 regions and 32-byte minimum region size. -/
abbrev mpu.MPU : Type :=
  CortexmMPU 8 32

/-- C9: the chip MPU has exactly 8 regions at 32-byte minimum alignment:
configuring 8 valid regions succeeds, requesting 9 regions is a
configuration error (not silent truncation), and a request containing a
region violating the 32-byte alignment is rejected at configuration
time. -/
theorem C9_mpu_region_limits (m : mpu.MPU) :
    (∀ rs : List MpuRegion, rs.length = 8 →
      rs.all (regionValid 32) = true →
      m.configure_regions rs = Except.ok ⟨rs⟩) ∧
    (∀ rs : List MpuRegion, rs.length = 9 →
      m.configure_regions rs = Except.error MpuError.tooManyRegions) ∧
    (∀ rs : List MpuRegion, rs.length ≤ 8 →
      (∃ r ∈ rs, regionValid 32 r = false) →
      m.configure_regions rs = Except.error MpuError.invalidRegion) := by
  refine ⟨?_, ?_, ?_⟩
  · intro rs hlen hval
    unfold CortexmMPU.configure_regions
    rw [if_neg (by omega), if_pos hval]
  · intro rs hlen
    unfold CortexmMPU.configure_regions
    rw [if_pos (by omega)]
  · intro rs hlen hbad
    obtain ⟨r, hr, hrv⟩ := hbad
    have hall : rs.all (regionValid 32) = false := by
      rw [List.all_eq_false]
      exact ⟨r, hr, by simp [hrv]⟩
    unfold CortexmMPU.configure_regions
    rw [if_neg (by omega), hall]
    rfl

/-- Witness for C9: eight 32-byte-aligned regions are accepted, nine are
rejected as too many, and a 16-byte region violating the 32-byte minimum
is rejected as invalid. -/
theorem C9_mpu_region_limits_witness :
    CortexmMPU.configure_regions (⟨[]⟩ : mpu.MPU)
      [⟨0, 32⟩, ⟨32, 32⟩, ⟨64, 32⟩, ⟨96, 32⟩, ⟨128, 32⟩, ⟨160, 32⟩,
        ⟨192, 32⟩, ⟨224, 32⟩] =
      Except.ok ⟨[⟨0, 32⟩, ⟨32, 32⟩, ⟨64, 32⟩, ⟨96, 32⟩, ⟨128, 32⟩,
        ⟨160, 32⟩, ⟨192, 32⟩, ⟨224, 32⟩]⟩ ∧
    CortexmMPU.configure_regions (⟨[]⟩ : mpu.MPU)
      [⟨0, 32⟩, ⟨32, 32⟩, ⟨64, 32⟩, ⟨96, 32⟩, ⟨128, 32⟩, ⟨160, 32⟩,
        ⟨192, 32⟩, ⟨224, 32⟩, ⟨256, 32⟩] =
      Except.error MpuError.tooManyRegions ∧
    CortexmMPU.configure_regions (⟨[]⟩ : mpu.MPU) [⟨0, 16⟩] =
      Except.error MpuError.invalidRegion :=
  ⟨(C9_mpu_region_limits ⟨[]⟩).1
      [⟨0, 32⟩, ⟨32, 32⟩, ⟨64, 32⟩, ⟨96, 32⟩, ⟨128, 32⟩, ⟨160, 32⟩,
        ⟨192, 32⟩, ⟨224, 32⟩] rfl (by decide),
   (C9_mpu_region_limits ⟨[]⟩).2.1
      [⟨0, 32⟩, ⟨32, 32⟩, ⟨64, 32⟩, ⟨96, 32⟩, ⟨128, 32⟩, ⟨160, 32⟩,
        ⟨192, 32⟩, ⟨224, 32⟩, ⟨256, 32⟩] rfl,
   (C9_mpu_region_limits ⟨[]⟩).2.2 [⟨0, 16⟩] (by decide)
      ⟨⟨0, 16⟩, by decide, by decide⟩⟩
